import Mathlib

/-!
Shallow embedding of the kranger dual-pane file browser
(src/update.rs, src/display.rs, src/file.rs, src/info.rs, src/external.rs)
and proofs about the spec's claims on it.

Conventions used throughout:
* Rust `usize`/`i32` arithmetic is modelled on `Nat`/`Int` with explicit
  wrapping (`% 2^64`, `% 2^32`) exactly where the source can wrap
  (release-profile semantics: `as` casts and over/underflow wrap, they do
  not panic).
* Paths (`PathBuf`) are modelled as lists of components of an absolute
  path (`[]` is `/`); `Path::ancestors().nth(1)` is `dropLast` guarded by
  emptiness, `Path::join` is `++ [name]`.
* Filesystem reads and external processes are oracles carried in an
  `Env` value inside the application state: raw depth-1 directory
  entries, an `is_dir` predicate, the bytes/metadata of regular files and
  the outcome streams of external commands.  All code that manipulates
  those answers (filtering, sorting, classification, the event loop) is
  translated from the source.
-/

namespace Kranger

/-- File kind, from `file.rs` (`FileType`). -/
inductive FileType where
  | file
  | directory
  | link
  | unknown
deriving DecidableEq, Repr

/-- Directory entry, from `file.rs` (`File`). -/
structure File where
  ftype : FileType
  name : String
deriving DecidableEq, Repr

/-- Classification categories.  `info.rs` in this snapshot lists
`Executable, Text, Unknown, Link, Directory`; the exhaustive match in
`update.rs` (NavigateDown arm) additionally requires ` Image`, ` Video`
and ` Audio`, so the enum carries all eight variants. -/
inductive InfoType where
  | Executable
  | Text
  | Unknown
  | Link
  | Directory
  | Image
  | Video
  | Audio
deriving DecidableEq, Repr

/-- Classification plus preview lines, from `info.rs` (`Info`). -/
structure Info where
  info_type : InfoType
  info_lines : List String
deriving DecidableEq, Repr

/-- Application events, from the match in `App::update` (`update.rs`) and
the bindings in `input.rs`.  There is no `ReadPdf` constructor in the
source. -/
inductive ApplicationEvent where
  | Close
  | NavigateUp
  | NavigateDown
  | SelectNext
  | SelectPrevious
  | ToggleShowHidden
  | OpenImage
  | OpenText
  | OpenExecutable
  | PlayMedia
  | DebugEvent
deriving DecidableEq, Repr

/-! ### Machine integer helpers (release-profile wrapping semantics) -/

/-- Wrap an unbounded integer into the `i32` value range. -/
def i32_wrap (n : Int) : Int :=
  (n + 2 ^ 31) % 2 ^ 32 - 2 ^ 31

/-- Rust `x as i32` for a `usize` value (truncating cast). -/
def i32_of_usize (n : Nat) : Int :=
  i32_wrap (n : Int)

/-- Rust `x as usize` for an `i32` value (sign-extending cast):
`-1` becomes `2^64 - 1`. -/
def usize_of_i32 (n : Int) : Nat :=
  (n % (2 ^ 64 : Int)).toNat

/-- Rust `usize` subtraction with release-profile wrap-around. -/
def usize_sub (a b : Nat) : Nat :=
  (((a : Int) - (b : Int)) % (2 ^ 64 : Int)).toNat

/-! ### display.rs: wide characters and truncation -/

/-- From `display.rs` (constants borrowed there from the konj project). -/
def HIRAGANA_BEG : Char := '\u3040'

/-- Upper end of the hiragana block (`display.rs`). -/
def HIRAGANA_END : Char := '\u309F'

/-- Lower end of the katakana block (`display.rs`). -/
def KATAKANA_BEG : Char := '\u30A0'

/-- Upper end of the katakana block (`display.rs`). -/
def KATAKANA_END : Char := '\u30FF'

/-- Lower end of the kanji block (`display.rs`). -/
def KANJI_BEG : Char := '\u4E00'

/-- Upper end of the kanji block (`display.rs`). -/
def KANJI_END : Char := '\u9FAF'

/-- Lower end of the fullwidth-forms block (`display.rs`). -/
def FULLWIDTH_BEG : Char := '\uFF01'

/-- Upper end of the fullwidth-forms block (`display.rs`). -/
def FULLWIDTH_END : Char := '\uFF60'

/-- From `display.rs`: `is_char_between_char_range`. -/
def is_char_between_char_range (ch range_beg range_end : Char) : Bool :=
  if ¬(ch ≥ range_beg ∧ ch ≤ range_end) then
    false
  else
    true

/-- From `display.rs`: `is_wide`. -/
def is_wide (ch : Char) : Bool :=
  let is_kanji := is_char_between_char_range ch KANJI_BEG KANJI_END
  let is_katakana := is_char_between_char_range ch KATAKANA_BEG KATAKANA_END
  let is_hiragana := is_char_between_char_range ch HIRAGANA_BEG HIRAGANA_END
  let is_fullwidth := is_char_between_char_range ch FULLWIDTH_BEG FULLWIDTH_END
  is_hiragana || is_katakana || is_kanji || is_fullwidth

/-- Visual width of one character: wide scripts occupy two columns. -/
def charWidth (c : Char) : Nat :=
  if is_wide c then 2 else 1

/-- Visual width of a string, summing per-character widths. -/
def visualWidth (s : String) : Nat :=
  (s.toList.map charWidth).sum

/-- Number of wide characters in a string
(`input.chars().filter(|ch| is_wide(*ch)).count()`). -/
def wideCount (s : String) : Nat :=
  (s.toList.filter is_wide).length

/-- Rust `str::starts_with(".")`, spelled on the character list (the
built-in `String.startsWith` is not kernel-reducible). -/
def startsWithDot (name : String) : Bool :=
  match name.toList with
  | c :: _ => c = '.'
  | [] => false

/-- Rust left-aligned width formatting, as `truncate_with_ellipsis`
uses it: pad on the right with spaces up to `width` characters (the
format width counts characters, not columns). -/
def padRight (s : String) (width : Nat) : String :=
  if s.length < width then
    s ++ String.mk (List.replicate (width - s.length) ' ')
  else
    s

/-- From `display.rs`: `truncate_with_ellipsis`.  The `usize`
subtractions `max_length - wide_chars` and `max_length - 1 - wide_chars`
can underflow in the source and are modelled with wrapping
(`usize_sub`). -/
def truncate_with_ellipsis (input : String) (max_length : Nat) : String :=
  if max_length < 3 then
    "…"
  else
    let chars_len := input.length
    let wide_chars := wideCount input
    if chars_len > usize_sub max_length wide_chars then
      String.mk (input.toList.take (usize_sub (max_length - 1) wide_chars)) ++ "…"
    else
      padRight input (usize_sub max_length wide_chars)

/-- From `display.rs`: `App::rows_to_print`, as a function of the values
it reads: `rows_to_show` (available rows), `max_lines` (the maximum of
the pane lengths and the info-line count) and `current_selection`. -/
def rows_to_print (rows_to_show max_lines current_selection : Nat) : Nat × Nat :=
  if max_lines > rows_to_show then
    let half := rows_to_show / 2
    if current_selection < half then
      (0, rows_to_show)
    else if current_selection > max_lines - half then
      (max_lines - rows_to_show, max_lines)
    else
      let start_offset := current_selection - half
      (start_offset, current_selection + half)
  else
    (0, max_lines)

/-! ### ansi.rs constants and display.rs cell formatting -/

/-- ANSI reset sequence (`ansi.rs`). -/
def ansiRESET : String := "\x1B[0m"

/-- ANSI white (`ansi.rs`). -/
def ansiWHITE : String := "\x1B[97m"

/-- ANSI blue (`ansi.rs`). -/
def ansiBLUE : String := "\x1B[34m"

/-- ANSI cyan (`ansi.rs`). -/
def ansiCYAN : String := "\x1B[36m"

/-- ANSI gray (`ansi.rs`). -/
def ansiGRAY : String := "\x1B[37m"

/-- ANSI red (`ansi.rs`). -/
def ansiRED : String := "\x1B[31m"

/-- From `display.rs`: `display_hidden_file`. -/
def display_hidden_file (file : File) (max_length : Nat) : String :=
  ansiGRAY ++ truncate_with_ellipsis file.name max_length ++ ansiRESET

/-- From `display.rs`: `display_normal_file`. -/
def display_normal_file (file : File) (max_length : Nat) : String :=
  ansiWHITE ++ truncate_with_ellipsis file.name max_length ++ ansiRESET

/-- From `display.rs`: `display_directory`. -/
def display_directory (file : File) (max_length : Nat) : String :=
  ansiBLUE ++ truncate_with_ellipsis file.name max_length ++ ansiRESET

/-- From `display.rs`: `display_link`. -/
def display_link (file : File) (max_length : Nat) : String :=
  ansiCYAN ++ truncate_with_ellipsis file.name max_length ++ ansiRESET

/-- From `display.rs`: `display_unknown`. -/
def display_unknown (file : File) (max_length : Nat) : String :=
  ansiRED ++ truncate_with_ellipsis file.name max_length ++ ansiRESET

/-- From `display.rs`: `display_file`. -/
def display_file (file : Option File) (max_length : Nat) : String :=
  match file with
  | some file =>
    if startsWithDot file.name then
      display_hidden_file file max_length
    else
      match file.ftype with
      | FileType.file => display_normal_file file max_length
      | FileType.directory => display_directory file max_length
      | FileType.link => display_link file max_length
      | FileType.unknown => display_unknown file max_length
  | none => String.mk (List.replicate max_length ' ')

/-! ### file.rs: hidden filter and directory listing -/

/-- From `file.rs`: `is_hidden` (file-name based; non-UTF-8 names, which
Rust treats as not hidden, cannot occur in this model since Lean strings
are Unicode). -/
def is_hidden (name : String) : Bool :=
  startsWithDot name

/-- Rust `String::cmp` (byte-lexicographic, which on UTF-8 agrees with
code-point lexicographic order) rendered as a boolean "less or equal":
`lexLE l1 l2 = (cmp l1 l2 ≠ Greater)`. -/
def lexLE : List Char → List Char → Bool
  | [], _ => true
  | _ :: _, [] => false
  | a :: as1, b :: bs1 =>
    if a.toNat < b.toNat then true
    else if b.toNat < a.toNat then false
    else lexLE as1 bs1

/-- The comparator of `files.sort_by` in `file.rs`, rendered as a
boolean "less or equal": directories sort before non-directories and
each group is ordered by name. -/
def fileLE (f1 f2 : File) : Bool :=
  let dir1 := f1.ftype = FileType.directory
  let dir2 := f2.ftype = FileType.directory
  if dir1 ∧ dir2 then
    lexLE f1.name.toList f2.name.toList
  else if dir1 ∧ ¬dir2 then
    true
  else if ¬dir1 ∧ dir2 then
    false
  else
    lexLE f1.name.toList f2.name.toList

/-- The comparator as a relation, for the sortedness lemmas. -/
def fileLEP (f1 f2 : File) : Prop :=
  fileLE f1 f2 = true

instance : DecidableRel fileLEP :=
  fun f1 f2 => inferInstanceAs (Decidable (fileLE f1 f2 = true))

/-- From `file.rs`: `directory_contents`.  The walkdir iteration is an
oracle: `entries` are the depth-1 children that were read successfully
(per-entry errors are already skipped by `filter_map`/`e.ok()` in the
source, for both values of `show_hidden`).  The hidden-name filter is
translated from the source.  Rust's `sort_by` is a stable sort; since
the comparator is a total preorder, every stable sort produces the same
output, and it is modelled by the (stable) `List.insertionSort`. -/
def directory_contents (entries : List File) (show_hidden : Bool) : List File :=
  let files := if show_hidden then entries else entries.filter (fun f => !is_hidden f.name)
  List.insertionSort fileLEP files

/-! ### info.rs: the classifier and previews -/

/-- Rust `Path::extension()` on a file name: the portion after the last
`.`, except that a name with no `.`, or whose only `.` is the leading
character (hidden files such as `.gitignore`), has no extension. -/
def rustExtension (name : String) : Option String :=
  let cs := name.toList
  match (cs.enum.filter (fun p => p.2 = '.')).getLast? with
  | none => none
  | some (i, _) =>
      if i = 0 then none
      else some (String.mk (cs.drop (i + 1)))

/-- From `info.rs`: the `KNOWN_NAMES` static map. -/
def KNOWN_NAMES (name : String) : Option InfoType :=
  if name = "README" then some InfoType.Text
  else if name = ".gitignore" then some InfoType.Text
  else none

/-- From `info.rs`: `InfoType::from_extension` (the string match is
rendered as an equality chain). -/
def InfoType.from_extension (extension : Option String) : InfoType :=
  match extension with
  | some e =>
      if e = "rs" ∨ e = "md" ∨ e = "txt" ∨ e = "toml" ∨ e = "lock" ∨ e = "ini" then
        InfoType.Text
      else if e = "exe" then
        InfoType.Executable
      else
        InfoType.Unknown
  | none => InfoType.Unknown

/-- A regular file as the classifier sees it: its name, its readable
byte content, and the answers the preview code gets from the outside
world.  `textLines` stands for `read_to_string(file).unwrap_or_default().lines()`
(UTF-8 decoding is not re-modelled), `lddOutput` for the trimmed stdout
lines of a successful `ldd` run (`none` = `run_ldd` failed), and
`sizeMB` for the two-decimal `f32` megabyte string derived from
`fs::metadata` (`none` = metadata failed; `f32` formatting is not
re-modelled). -/
structure RegFile where
  name : String
  bytes : List Nat
  textLines : List String
  lddOutput : Option (List String)
  sizeMB : Option String
deriving DecidableEq, Repr

/-- UTF-8 continuation byte (`0x80`-`0xBF`). -/
def utf8Cont (b : Nat) : Bool :=
  0x80 ≤ b && b ≤ 0xBF

/-- For a leading UTF-8 byte: the number of continuation bytes and the
admissible range of the first one, or `none` for an invalid leading
byte.  These are exactly the ranges `std::str::from_utf8` accepts
(rejecting overlong forms, surrogates and values above `U+10FFFF`). -/
def utf8Lead (b : Nat) : Option (Nat × Nat × Nat) :=
  if b ≤ 0x7F then some (0, 0, 0)
  else if 0xC2 ≤ b && b ≤ 0xDF then some (1, 0x80, 0xBF)
  else if b = 0xE0 then some (2, 0xA0, 0xBF)
  else if (0xE1 ≤ b && b ≤ 0xEC) || b = 0xEE || b = 0xEF then some (2, 0x80, 0xBF)
  else if b = 0xED then some (2, 0x80, 0x9F)
  else if b = 0xF0 then some (3, 0x90, 0xBF)
  else if 0xF1 ≤ b && b ≤ 0xF3 then some (3, 0x80, 0xBF)
  else if b = 0xF4 then some (3, 0x80, 0x8F)
  else none

/-- Structural worker for `utf8Valid`; the fuel starts at the buffer
length and each step consumes at least one byte, so it never runs
out. -/
def utf8ValidGo : Nat → List Nat → Bool
  | _, [] => true
  | 0, _ :: _ => false
  | fuel + 1, b :: rest =>
    match utf8Lead b with
    | none => false
    | some (0, _, _) => utf8ValidGo fuel rest
    | some (1, lo, hi) =>
      match rest with
      | c1 :: r => (lo ≤ c1 && c1 ≤ hi) && utf8ValidGo fuel r
      | [] => false
    | some (2, lo, hi) =>
      match rest with
      | c1 :: c2 :: r => (lo ≤ c1 && c1 ≤ hi) && utf8Cont c2 && utf8ValidGo fuel r
      | _ => false
    | some (_ + 3, lo, hi) =>
      match rest with
      | c1 :: c2 :: c3 :: r => (lo ≤ c1 && c1 ≤ hi) && utf8Cont c2 && utf8Cont c3 && utf8ValidGo fuel r
      | _ => false

/-- Rust `std::str::from_utf8(..).is_ok()` on a byte buffer. -/
def utf8Valid (l : List Nat) : Bool :=
  utf8ValidGo l.length l

/-- From `external.rs`: `probably_valid_utf` — one `read` of up to 1KB,
then UTF-8 validation of the bytes read. -/
def probably_valid_utf (bytes : List Nat) : Bool :=
  utf8Valid (bytes.take 1024)

/-- The ELF magic `0x7F 'E' 'L' 'F'`. -/
def elfMagic : List Nat := [0x7F, 0x45, 0x4C, 0x46]

/-- From `info.rs`: `InfoType::from_contents`.  The `read` of the 4-byte
magic buffer returns `min 4 size` bytes; `bytes_read < 4` yields
`Unknown` before any sniffing.  Open/read failures (not representable
here: `bytes` is the readable content) also yield `Unknown` in the
source. -/
def InfoType.from_contents (f : RegFile) : InfoType :=
  if f.bytes.length < 4 then InfoType.Unknown
  else if f.bytes.take 4 = elfMagic then InfoType.Executable
  else if probably_valid_utf f.bytes then InfoType.Text
  else InfoType.Unknown

/-- From `info.rs`: `InfoType::new` (always `Ok` in the source, so the
`Result` wrapper is dropped). -/
def InfoType.new (f : RegFile) : InfoType :=
  match rustExtension f.name with
  | some e => InfoType.from_extension (some e)
  | none =>
    match KNOWN_NAMES f.name with
    | some info_type => info_type
    | none => InfoType.from_contents f

/-- The size line prepended for executables in `Info::new`:
the word `Executable` followed by the metadata-derived size, or by
`Unknown size` when metadata failed. -/
def execSizeLine (f : RegFile) : String :=
  "Executable " ++ (match f.sizeMB with
    | some s => s
    | none => "Unknown size")

/-- From `info.rs`: `Info::new` (always `Ok` in the source: `run_ldd`
failure is absorbed by `unwrap_or_default`, metadata failure by
`unwrap_or`, unreadable text by `unwrap_or_default`). -/
def Info.new (f : RegFile) : Info :=
  let info_type := InfoType.new f
  let info_lines : List String :=
    match info_type with
    | InfoType.Text => f.textLines.take 50
    | InfoType.Executable => execSizeLine f :: f.lddOutput.getD []
    | _ => []
  ⟨info_type, info_lines⟩

/-- From `info.rs`: `Info::link`. -/
def Info.link : Info :=
  ⟨InfoType.Link, []⟩

/-- From `info.rs`: `Info::directory`: list the directory (hidden names
dropped) and format every entry into a 50-column cell.  `entries` are
the raw depth-1 children the walkdir oracle returns for the directory. -/
def Info.directory (entries : List File) : Info :=
  ⟨InfoType.Directory, (directory_contents entries false).map (fun f => display_file (some f) 50)⟩

/-! ### update.rs: application state and the event-driven update engine -/

/-- Outcome the environment supplies for one `PlayMedia` handling:
`ffprobe` fails (spawn error or non-zero exit), succeeds with an empty
stdout (the source then panics at `stdout.lines().next().unwrap()`),
succeeds with an unparsable first line, or yields a duration (`long` =
duration above the 5-second threshold; `f32` parsing/comparison is not
re-modelled) followed by the `mpv` spawn outcome. -/
inductive MediaOutcome where
  | probeFail
  | probeEmpty
  | probeParseErr
  | probed (long : Bool) (spawnOk : Bool)
deriving DecidableEq, Repr

/-- The outside world as the update engine sees it: an `is_dir`
predicate on paths, the raw depth-1 walkdir entries of a directory, the
regular-file data behind a path, and the outcome streams of external
commands (`run_command` consumes `cmdResults`, a `true` head meaning
exit status 0; `play_media` consumes `mediaResults`). -/
structure Env where
  isDir : List String → Bool
  raw : List String → List File
  fileOf : List String → RegFile
  cmdResults : List Bool
  mediaResults : List MediaOutcome

/-- The `App` state, with the fields `update.rs`, `display.rs` and
`input.rs` read or write (`main.rs` in this snapshot is an earlier
monolithic revision; the field set here is the one the modular code
uses).  `children` keeps one entry per live spawned process. -/
structure AppState where
  current_directory : List String
  current_selection : Nat
  selected_item : Option (List String)
  current_directory_contents : List File
  parent_directory_contents : List File
  should_run : Bool
  directory_changed : Bool
  show_hidden : Bool
  selection_info : Option Info
  new_events : List ApplicationEvent
  debug_messages : List String
  children : List Nat
  env : Env

/-- The debug ring buffer `App::msg`: capacity 6, FIFO eviction
(`if len > 5 remove(0); push`). -/
def appMsg (s : AppState) (message : String) : AppState :=
  let dm := if s.debug_messages.length > 5 then s.debug_messages.drop 1 else s.debug_messages
  { s with debug_messages := dm ++ [message] }

/-- From `update.rs`: `App::parent_directory`
(`ancestors().nth(1)`). -/
def parent_directory (s : AppState) : Option (List String) :=
  match s.current_directory with
  | [] => none
  | _ => some s.current_directory.dropLast

/-- From `update.rs`: `App::change_directory`. -/
def change_directory (s : AppState) (dest : List String) : AppState :=
  { s with current_directory := dest, directory_changed := true }

/-- From `update.rs`: `App::update_selected_item`.  Note that in the
source the `Unknown` arm resets `selected_item` to `None` after having
set it, and that `selection_info` keeps its previous (possibly stale)
value whenever no new classification is assigned. -/
def update_selected_item (s : AppState) : AppState :=
  match s.current_directory_contents.get? s.current_selection with
  | some item =>
    let path := s.current_directory ++ [item.name]
    let s := { s with selected_item := some path }
    match item.ftype with
    | FileType.file => { s with selection_info := some (Info.new (s.env.fileOf path)) }
    | FileType.directory => { s with selection_info := some (Info.directory (s.env.raw path)) }
    | FileType.link => { s with selection_info := some Info.link }
    | FileType.unknown => { s with selected_item := none }
  | none => { s with selected_item := none }

/-- From `update.rs`: `App::change_selection` (always returns `Ok` in
the source; the dead `should_loop = true` branches are omitted).  The
`i32`/`usize` casts are modelled with their wrapping semantics: with an
empty listing, `max_selection - 1 = -1` is cast back to `usize` as
`2^64 - 1`. -/
def change_selection (s : AppState) (change_by : Int) : AppState :=
  let max_selection : Int := i32_of_usize s.current_directory_contents.length
  let next0 : Int := i32_wrap (i32_of_usize s.current_selection + change_by)
  let next : Int :=
    if next0 ≥ max_selection then i32_wrap (max_selection - 1)
    else if next0 < 0 then 0
    else next0
  update_selected_item { s with current_selection := usize_of_i32 next }

/-- Render a path for handing to an external command
(`PathBuf::to_str().unwrap()`; non-UTF-8 paths, on which the source
panics, are not representable in this model). -/
def pathStr (p : List String) : String :=
  "/" ++ String.intercalate "/" p

/-- The debug rendering of a string slice, as the `Running`/`Playing`
log messages embed it. -/
def argsRepr (args : List String) : String :=
  "[" ++ String.intercalate ", " (args.map (fun a => "\"" ++ a ++ "\"")) ++ "]"

/-- Result of one event handler: `Ok`, `Err` (with the message the
`anyhow` error displays) or a panic that aborts the process. -/
inductive HandlerOutcome where
  | ok (s : AppState)
  | err (s : AppState) (e : String)
  | panic (e : String)

/-- From `update.rs`: `App::run_command`.  It logs the invocation, runs
the command (outcome from the environment stream; the exit-code number
in the error text is not tracked) and reports non-zero exits as
errors.  It never panics, so the result is state plus optional error. -/
def run_command (s : AppState) (command : String) (args : List String) : AppState × Option String :=
  let s := appMsg s ("Running " ++ command ++ " with " ++ argsRepr args)
  match s.env.cmdResults with
  | [] => (s, some "Executing external command failed")
  | ok :: rest =>
    let s := { s with env := { s.env with cmdResults := rest } }
    if ok then (s, none) else (s, some "Executing external command failed")

/-- From `update.rs`: `App::play_media`.  `reset_terminal` /
`setup_terminal` (missing from this snapshot) are modelled as
succeeding.  `get_media_length` drives the `mpv` argument choice; an
`ffprobe` success with empty stdout panics in the source
(`stdout.lines().next().unwrap()`). -/
def play_media (s : AppState) (path : String) : HandlerOutcome :=
  let m := match s.env.mediaResults with
    | [] => MediaOutcome.probeFail
    | m :: _ => m
  let s := { s with env := { s.env with mediaResults := s.env.mediaResults.drop 1 } }
  match m with
  | MediaOutcome.probeFail => HandlerOutcome.err s "Executing ffprobe failed"
  | MediaOutcome.probeEmpty => HandlerOutcome.panic "called Option::unwrap on a None value"
  | MediaOutcome.probeParseErr => HandlerOutcome.err s "invalid float literal"
  | MediaOutcome.probed long spawnOk =>
    let args := if long then [path, "--quiet"]
      else [path, "--really-quiet", "--no-input-default-bindings", "--no-config"]
    let s := appMsg s ("Playing media: mpv " ++ argsRepr args)
    if spawnOk then HandlerOutcome.ok { s with children := s.children ++ [0] }
    else HandlerOutcome.err s "spawn failed"

/-- The `Err` branch of the NavigateDown arm in `App::update`: with a
classification at hand, enqueue the matching open event (`Link` does
nothing, `Directory` hits the explicit `panic!`); without one,
propagate the navigation error. -/
def navigateDownFallback (s : AppState) (e : String) : HandlerOutcome :=
  match s.selection_info with
  | some info =>
    match info.info_type with
    | InfoType.Executable =>
      HandlerOutcome.ok { s with new_events := s.new_events ++ [ApplicationEvent.OpenExecutable] }
    | InfoType.Text =>
      HandlerOutcome.ok { s with new_events := s.new_events ++ [ApplicationEvent.OpenText] }
    | InfoType.Unknown =>
      HandlerOutcome.ok { s with new_events := s.new_events ++ [ApplicationEvent.OpenImage] }
    | InfoType.Link => HandlerOutcome.ok s
    | InfoType.Directory => HandlerOutcome.panic "Should be possible to navigate_down in this case"
    | InfoType.Image =>
      HandlerOutcome.ok { s with new_events := s.new_events ++ [ApplicationEvent.OpenImage] }
    | InfoType.Video =>
      HandlerOutcome.ok { s with new_events := s.new_events ++ [ApplicationEvent.PlayMedia] }
    | InfoType.Audio =>
      HandlerOutcome.ok { s with new_events := s.new_events ++ [ApplicationEvent.PlayMedia] }
  | none => HandlerOutcome.err s e

/-- One arm of the event match in `App::update`, including
`App::navigate_up` / `App::navigate_down` inlined the way the source
calls them.  The `Open*`/`PlayMedia` arms panic when `selected_item` is
`None` (`.clone().unwrap()` in the source). -/
def handleEvent (s : AppState) (e : ApplicationEvent) : HandlerOutcome :=
  match e with
  | ApplicationEvent.Close => HandlerOutcome.ok { s with should_run := false }
  | ApplicationEvent.NavigateUp =>
    match parent_directory s with
    | none => HandlerOutcome.err s "No parent directory available"
    | some p => HandlerOutcome.ok (change_directory s p)
  | ApplicationEvent.NavigateDown =>
    match s.selected_item with
    | none => navigateDownFallback s "No item selected!"
    | some selection =>
      if s.env.isDir selection then HandlerOutcome.ok (change_directory s selection)
      else navigateDownFallback s "Selected item is not a directory!"
  | ApplicationEvent.SelectNext => HandlerOutcome.ok (change_selection s 1)
  | ApplicationEvent.SelectPrevious => HandlerOutcome.ok (change_selection s (-1))
  | ApplicationEvent.ToggleShowHidden =>
    HandlerOutcome.ok { s with show_hidden := !s.show_hidden, directory_changed := true }
  | ApplicationEvent.OpenImage =>
    match s.selected_item with
    | none => HandlerOutcome.panic "called Option::unwrap on a None value"
    | some p =>
      match run_command s "pfiew" ["--input=" ++ pathStr p] with
      | (s, none) => HandlerOutcome.ok s
      | (s, some e) => HandlerOutcome.err s e
  | ApplicationEvent.OpenText =>
    match s.selected_item with
    | none => HandlerOutcome.panic "called Option::unwrap on a None value"
    | some p =>
      match run_command s "micro" [pathStr p] with
      | (s, none) => HandlerOutcome.ok s
      | (s, some e) => HandlerOutcome.err s e
  | ApplicationEvent.OpenExecutable =>
    match s.selected_item with
    | none => HandlerOutcome.panic "called Option::unwrap on a None value"
    | some p =>
      match run_command s (pathStr p) [] with
      | (s, none) => HandlerOutcome.ok s
      | (s, some e) => HandlerOutcome.err s e
  | ApplicationEvent.PlayMedia =>
    match s.selected_item with
    | none => HandlerOutcome.panic "called Option::unwrap on a None value"
    | some p => play_media s (pathStr p)
  | ApplicationEvent.DebugEvent => HandlerOutcome.ok (appMsg s "q!!")

/-- The per-event boundary in `App::update`: an `Err` result becomes a
debug message (the error prefixed with `Error: `), a panic aborts the
process (`none`). -/
def step (s : AppState) (e : ApplicationEvent) : Option AppState :=
  match handleEvent s e with
  | HandlerOutcome.ok s1 => some s1
  | HandlerOutcome.err s1 m => some (appMsg s1 ("Error: " ++ m))
  | HandlerOutcome.panic _ => none

/-- The drain loop of `App::update` over the events taken from the
queue; `none` means a handler panicked and the process died. -/
def processEvents : AppState → List ApplicationEvent → Option AppState
  | s, [] => some s
  | s, e :: rest =>
    match step s e with
    | some s1 => processEvents s1 rest
    | none => none

/-- The fallback path `"\\"` used when no parent directory exists
(`self.parent_directory().unwrap_or("\\".into())`). -/
def fallbackPath : List String := ["\\"]

/-- The `directory_changed` block at the top of `App::update`: relist
both panes, clear the flag, reset the selection and reclassify it. -/
def refresh (s : AppState) : AppState :=
  if s.directory_changed then
    let s := { s with
      current_directory_contents := directory_contents (s.env.raw s.current_directory) s.show_hidden,
      parent_directory_contents :=
        directory_contents (s.env.raw ((parent_directory s).getD fallbackPath)) s.show_hidden }
    let s := { s with directory_changed := false, current_selection := 0 }
    update_selected_item s
  else s

/-- One tick of `App::update`: the `directory_changed` block, then
`std::mem::take` of the queue and the drain loop.  (`update_window_size`
and the child sweep after the loop touch no field the claims mention
and are omitted.) -/
def updateTick (s : AppState) : Option AppState :=
  let t := refresh s
  processEvents { t with new_events := [] } t.new_events

/-- The events the NavigateDown fallback enqueues per classification
(empty list: no event). -/
def fallbackEvents : InfoType → List ApplicationEvent
  | InfoType.Executable => [ApplicationEvent.OpenExecutable]
  | InfoType.Text => [ApplicationEvent.OpenText]
  | InfoType.Unknown => [ApplicationEvent.OpenImage]
  | InfoType.Link => []
  | InfoType.Directory => []
  | InfoType.Image => [ApplicationEvent.OpenImage]
  | InfoType.Video => [ApplicationEvent.PlayMedia]
  | InfoType.Audio => [ApplicationEvent.PlayMedia]

/-- Whether `App::navigate_down` would return an error in state `s`. -/
def navDownFails (s : AppState) : Bool :=
  match s.selected_item with
  | none => true
  | some p => !s.env.isDir p

/-- Whether the current classification is `Directory`. -/
def infoIsDirectory (s : AppState) : Bool :=
  match s.selection_info with
  | some info => info.info_type = InfoType.Directory
  | none => false

/-- Head of the media-outcome stream (what the next `play_media` call
will see). -/
def headMedia (s : AppState) : MediaOutcome :=
  match s.env.mediaResults with
  | [] => MediaOutcome.probeFail
  | m :: _ => m

/-- The exact conditions under which handling event `e` in state `s`
does not hit a panic in the source: the `Open*`/`PlayMedia` arms unwrap
`selected_item`, `play_media` unwraps the first `ffprobe` stdout line,
and the NavigateDown fallback hits an explicit `panic!` when navigation
failed yet the classification claims `Directory`. -/
def PanicFree (s : AppState) (e : ApplicationEvent) : Prop :=
  match e with
  | ApplicationEvent.OpenImage => s.selected_item.isSome
  | ApplicationEvent.OpenText => s.selected_item.isSome
  | ApplicationEvent.OpenExecutable => s.selected_item.isSome
  | ApplicationEvent.PlayMedia => s.selected_item.isSome ∧ headMedia s ≠ MediaOutcome.probeEmpty
  | ApplicationEvent.NavigateDown =>
    match s.selected_item, s.selection_info with
    | none, some info => info.info_type ≠ InfoType.Directory
    | some p, some info => s.env.isDir p = false → info.info_type ≠ InfoType.Directory
    | _, none => True
  | _ => True

/-! ### Concrete states used by witnesses and counterexamples -/

/-- A regular file with no content. -/
def emptyRegFile : RegFile :=
  ⟨"", [], [], none, none⟩

/-- An environment in which every directory is empty and every external
command fails. -/
def emptyEnv : Env :=
  ⟨fun _ => false, fun _ => [], fun _ => emptyRegFile, [], []⟩

/-- The application state at the root directory with an empty listing:
nothing is selected and no classification is available. -/
def exState : AppState where
  current_directory := []
  current_selection := 0
  selected_item := none
  current_directory_contents := []
  parent_directory_contents := []
  should_run := true
  directory_changed := false
  show_hidden := false
  selection_info := none
  new_events := []
  debug_messages := []
  children := []
  env := emptyEnv

/-! ### Helper lemmas -/

theorem usize_sub_eq {a b : Nat} (hba : b ≤ a) (ha : a < 2 ^ 64) : usize_sub a b = a - b := by
  unfold usize_sub
  omega

theorem widthSum (l : List Char) :
    (l.map charWidth).sum = l.length + (l.filter is_wide).length := by
  induction l with
  | nil => simp
  | cons c t ih =>
    by_cases h : is_wide c <;>
      simp [charWidth, h, ih] <;> omega

theorem visualWidth_mk (l : List Char) : visualWidth (String.mk l) = (l.map charWidth).sum := rfl

theorem visualWidth_append (s t : String) :
    visualWidth (s ++ t) = visualWidth s + visualWidth t := by
  simp [visualWidth, String.toList, String.data_append]

/-! ### Claim theorems -/

/-- C3, counterexample: the claim promises `(0, 0)` for `R = 0`
regardless of `N` and `S`, but `rows_to_print 0 2 1 = (1, 1)` (and, with
it, `from ≤ S < to` fails there); and it promises `to - from = R`
whenever `N > R`, but with the odd capacity `R = 11` the centered branch
returns a window of length `2 * (R / 2) = 10`. -/
theorem rows_to_print_claim_counterexample :
    rows_to_print 0 2 1 = (1, 1) ∧ rows_to_print 11 100 50 = (45, 55) := by
  exact ⟨by decide, by decide⟩

/-- C3 (amended): for `0 ≤ S < N` the window `(from, to)` satisfies
`from ≤ S`, `to ≤ N` and `to - from ≤ R`; moreover `S < to` provided
`R ≥ 2` or `N ≤ R`; whenever `N > R` the window length is between
`R - R % 2` and `R`, hence exactly `R` for even `R` (the centered branch
produces `2 * (R / 2)`); `N = 0` yields `(0, 0)` for every `R` and `S`,
and `R = 0` yields `(S, S)` (an empty slice, but not `(0, 0)`). -/
theorem rows_to_print_window :
    (∀ rows_to_show current_selection,
      rows_to_print rows_to_show 0 current_selection = (0, 0))
    ∧ (∀ max_lines current_selection, current_selection < max_lines →
        rows_to_print 0 max_lines current_selection = (current_selection, current_selection))
    ∧ (∀ rows_to_show max_lines current_selection, current_selection < max_lines →
        (rows_to_print rows_to_show max_lines current_selection).1 ≤ current_selection
        ∧ (rows_to_print rows_to_show max_lines current_selection).2 ≤ max_lines
        ∧ (rows_to_print rows_to_show max_lines current_selection).2
            - (rows_to_print rows_to_show max_lines current_selection).1 ≤ rows_to_show
        ∧ (2 ≤ rows_to_show ∨ max_lines ≤ rows_to_show →
            current_selection < (rows_to_print rows_to_show max_lines current_selection).2)
        ∧ (rows_to_show < max_lines →
            rows_to_show - rows_to_show % 2 ≤
              (rows_to_print rows_to_show max_lines current_selection).2
                - (rows_to_print rows_to_show max_lines current_selection).1
            ∧ (rows_to_show % 2 = 0 →
                (rows_to_print rows_to_show max_lines current_selection).2
                  - (rows_to_print rows_to_show max_lines current_selection).1 = rows_to_show))) := by
  refine ⟨?_, ?_, ?_⟩
  · intro R S
    simp [rows_to_print]
  · intro N S h
    simp only [rows_to_print]
    rw [if_pos (by omega), if_neg (by omega), if_neg (by omega)]
    simp
  · intro R N S h
    simp only [rows_to_print]
    split_ifs with h1 h2 h3 <;> simp only [Prod.fst, Prod.snd] <;> omega

theorem rows_to_print_window_witness :
    (rows_to_print 10 100 50).1 ≤ 50
    ∧ (rows_to_print 10 100 50).2 ≤ 100
    ∧ (rows_to_print 10 100 50).2 - (rows_to_print 10 100 50).1 ≤ 10 :=
  ⟨(rows_to_print_window.2.2 10 100 50 (by decide)).1,
    (rows_to_print_window.2.2 10 100 50 (by decide)).2.1,
    (rows_to_print_window.2.2 10 100 50 (by decide)).2.2.1⟩

/-- C2: in an empty listing (`N = 0`, selection 0) a `SelectNext`
reaches the `next >= max_selection` clamp, which computes
`max_selection - 1 = -1` and casts it to `usize`, so the selection
wraps to `2^64 - 1` instead of staying at 0 (the claim's
"never wraps" fails for `N = 0`); a `SelectPrevious` there stays
at 0 as claimed. -/
theorem change_selection_empty_wraps :
    (change_selection exState 1).current_selection = 18446744073709551615
    ∧ (change_selection exState (-1)).current_selection = 0 := by
  exact ⟨rfl, rfl⟩

/-- C8, counterexample: the routine is not width-bounded for every
budget — at budget 0 it still produces the ellipsis, of visual width 1;
nor does it pad short strings for budgets below 3 (`"a"` at budget 2
becomes `"…"`, not `"a "`); and an over-long string is not cut at the
last boundary of cumulative width ≤ budget-1: `"aaaaも"` at budget 5
could keep `"aaaa"` (width 4) before the ellipsis, but the code keeps
only `5 - 1 - 1 = 3` characters. -/
theorem truncate_with_ellipsis_counterexample :
    truncate_with_ellipsis "" 0 = "…" ∧ visualWidth "…" = 1
    ∧ truncate_with_ellipsis "a" 2 = "…"
    ∧ truncate_with_ellipsis "aaaaも" 5 = "aaa…"
    ∧ truncate_with_ellipsis "aaaaも" 5 ≠ "aaaa…"
    ∧ visualWidth "aaaa…" = 5 := by
  exact ⟨by decide, by decide, by decide, by decide, by decide, by decide⟩

/-- C8 (amended): for budgets below 3 the result is exactly the
ellipsis (visual width 1, which exceeds a budget of 0); for a budget
`B ≥ 3` (within `usize` range) and a string with fewer than `B` wide
characters, the result's visual width never exceeds `B`: a string of at
most `B - W` characters is right-padded to exactly width `B`, and a
longer one is cut to its first `B - 1 - W` characters (cumulative width
≤ B-1, though possibly before the last boundary that would fit) plus an
ellipsis.  (With `W ≥ B` the `usize` subtraction in the source
underflows; no bound is claimed there.) -/
theorem truncate_with_ellipsis_bounded :
    ∀ (input : String) (max_length : Nat),
      max_length < 2 ^ 64 →
      (max_length < 3 → truncate_with_ellipsis input max_length = "…")
      ∧ (3 ≤ max_length → wideCount input < max_length →
          visualWidth (truncate_with_ellipsis input max_length) ≤ max_length
          ∧ (input.length ≤ max_length - wideCount input →
              visualWidth (truncate_with_ellipsis input max_length) = max_length)
          ∧ (max_length - wideCount input < input.length →
              truncate_with_ellipsis input max_length =
                String.mk (input.toList.take (max_length - 1 - wideCount input)) ++ "…")) := by
  intro input B hB
  constructor
  · intro h3
    unfold truncate_with_ellipsis
    rw [if_pos h3]
  · intro h3 hW
    have hsub : usize_sub B (wideCount input) = B - wideCount input :=
      usize_sub_eq (by omega) hB
    have hsub1 : usize_sub (B - 1) (wideCount input) = B - 1 - wideCount input :=
      usize_sub_eq (by omega) (by omega)
    have hlen : input.length = input.toList.length := rfl
    have hwc : wideCount input = (input.toList.filter is_wide).length := rfl
    have hvis : visualWidth input = input.length + wideCount input := by
      rw [visualWidth, widthSum, hlen, hwc]
    by_cases hc : input.length > usize_sub B (wideCount input)
    · -- truncation branch
      have heq : truncate_with_ellipsis input B =
          String.mk (input.toList.take (B - 1 - wideCount input)) ++ "…" := by
        unfold truncate_with_ellipsis
        rw [if_neg (by omega), if_pos hc, hsub1]
      have htake : visualWidth (String.mk (input.toList.take (B - 1 - wideCount input)))
          ≤ B - 1 := by
        rw [visualWidth_mk, widthSum]
        have h1 : (input.toList.take (B - 1 - wideCount input)).length
            ≤ B - 1 - wideCount input :=
          List.length_take_le (B - 1 - wideCount input) input.toList
        have h2 : ((input.toList.take (B - 1 - wideCount input)).filter is_wide).length
            ≤ (input.toList.filter is_wide).length :=
          ((List.take_sublist _ _).filter is_wide).length_le
        omega
      refine ⟨?_, ?_, ?_⟩
      · rw [heq, visualWidth_append]
        have : visualWidth "…" = 1 := by decide
        omega
      · intro hle
        rw [hsub] at hc
        omega
      · intro _
        exact heq
    · -- padding branch
      have hcle : input.length ≤ B - wideCount input := by
        rw [hsub] at hc
        omega
      have heq : truncate_with_ellipsis input B =
          padRight input (B - wideCount input) := by
        unfold truncate_with_ellipsis
        rw [if_neg (by omega), if_neg (by rw [hsub]; omega), hsub]
      have hpad : visualWidth (padRight input (B - wideCount input)) = B := by
        unfold padRight
        by_cases hlt : input.length < B - wideCount input
        · rw [if_pos hlt, visualWidth_append]
          have hsp : visualWidth
              (String.mk (List.replicate (B - wideCount input - input.length) ' '))
              = B - wideCount input - input.length := by
            rw [visualWidth_mk]
            have hcw : charWidth ' ' = 1 := by decide
            simp [List.map_replicate, hcw]
          omega
        · rw [if_neg hlt]
          omega
      refine ⟨?_, ?_, ?_⟩
      · rw [heq, hpad]
      · intro _
        rw [heq, hpad]
      · intro hgt
        omega

theorem truncate_with_ellipsis_bounded_witness :
    visualWidth (truncate_with_ellipsis "abc" 5) ≤ 5 :=
  (((truncate_with_ellipsis_bounded "abc" 5 (by decide)).2 (by decide) (by decide))).1

/-- The classifier decision procedure as the (amended) claim words it,
stated independently of `InfoType.new` so the two can be compared:
extension matched against the static table first; a path with no
extension has its file name matched against the well-known-name table;
otherwise content is sniffed — fewer than 4 readable bytes yield
Unknown, the ELF magic yields Executable, else a valid-UTF-8 first 1KB
yields Text, else Unknown. -/
def classifierSpec (f : RegFile) : InfoType :=
  match rustExtension f.name with
  | some e =>
    if e ∈ ["rs", "md", "txt", "toml", "lock", "ini"] then InfoType.Text
    else if e = "exe" then InfoType.Executable
    else InfoType.Unknown
  | none =>
    if f.name ∈ ["README", ".gitignore"] then InfoType.Text
    else if f.bytes.length < 4 then InfoType.Unknown
    else if f.bytes.take 4 = elfMagic then InfoType.Executable
    else if probably_valid_utf f.bytes then InfoType.Text
    else InfoType.Unknown

/-- C5, counterexample: a 2-byte extensionless file (`"hi"`, bytes
`"hi"`) is not ELF and its first 1KB is valid UTF-8, so the claim's
sniffing order classifies it Text — but the source returns Unknown
whenever fewer than 4 magic bytes could be read, before attempting
UTF-8 validation. -/
theorem classifier_short_file_counterexample :
    InfoType.new ⟨"hi", [104, 105], [], none, none⟩ = InfoType.Unknown
    ∧ rustExtension "hi" = none
    ∧ KNOWN_NAMES "hi" = none
    ∧ [104, 105].take 4 ≠ elfMagic
    ∧ probably_valid_utf [104, 105] = true := by
  exact ⟨by decide, by decide, by decide, by decide, by decide⟩

/-- C5 (amended): the classifier decides in the claimed order —
extension table, then well-known names for extensionless paths, then
content sniffing — with the one correction that a file whose readable
content is shorter than the 4-byte magic buffer classifies as Unknown
before UTF-8 validation is attempted.  In particular every path with
extension `rs` is Text, an extensionless unknown-named file starting
with the ELF magic is Executable, and a non-UTF-8 binary with no
recognized extension, name or magic is Unknown. -/
theorem InfoType_new_eq_classifierSpec :
    (∀ f, InfoType.new f = classifierSpec f)
    ∧ (∀ f : RegFile, rustExtension f.name = some "rs" → InfoType.new f = InfoType.Text)
    ∧ (∀ f : RegFile, rustExtension f.name = none → KNOWN_NAMES f.name = none →
        4 ≤ f.bytes.length → f.bytes.take 4 = elfMagic →
        InfoType.new f = InfoType.Executable)
    ∧ (∀ f : RegFile, rustExtension f.name = none → KNOWN_NAMES f.name = none →
        f.bytes.take 4 ≠ elfMagic → probably_valid_utf f.bytes = false →
        InfoType.new f = InfoType.Unknown) := by
  have hmain : ∀ f, InfoType.new f = classifierSpec f := by
    intro f
    unfold InfoType.new classifierSpec
    cases h : rustExtension f.name with
    | some e =>
      simp only [InfoType.from_extension, List.mem_cons, List.not_mem_nil, or_false]
    | none =>
      by_cases h1 : f.name = "README" <;> by_cases h2 : f.name = ".gitignore" <;>
        simp [KNOWN_NAMES, h1, h2, InfoType.from_contents]
  refine ⟨hmain, ?_, ?_, ?_⟩
  · intro f h
    rw [hmain f]
    unfold classifierSpec
    rw [h]
    simp
  · intro f h hk hlen hmagic
    unfold InfoType.new
    rw [h, hk]
    unfold InfoType.from_contents
    rw [if_neg (by omega), if_pos hmagic]
  · intro f h hk hmagic hutf
    unfold InfoType.new
    rw [h, hk]
    unfold InfoType.from_contents
    by_cases hlen : f.bytes.length < 4
    · rw [if_pos hlen]
    · rw [if_neg hlen, if_neg hmagic, hutf]
      rfl

theorem InfoType_new_eq_classifierSpec_witness :
    rustExtension "a.rs" = some "rs"
    ∧ InfoType.new ⟨"a.rs", [], [], none, none⟩ = InfoType.Text
    ∧ InfoType.new ⟨"prog", [127, 69, 76, 70, 0], [], none, none⟩ = InfoType.Executable :=
  ⟨by decide,
    InfoType_new_eq_classifierSpec.2.1 ⟨"a.rs", [], [], none, none⟩ (by decide),
    InfoType_new_eq_classifierSpec.2.2.1 ⟨"prog", [127, 69, 76, 70, 0], [], none, none⟩
      (by decide) (by decide) (by decide) (by decide)⟩

/-- C7, counterexample: for an ELF executable whose `ldd` run fails
(`lddOutput = none`), the preview is the size line alone — the claim's
single "unavailable" placeholder line does not exist, so the preview
has one line, not two. -/
theorem executable_preview_counterexample :
    Info.new ⟨"prog", [127, 69, 76, 70, 0], [], none, some "1.00 MB"⟩ =
      ⟨InfoType.Executable, ["Executable 1.00 MB"]⟩
    ∧ (Info.new ⟨"prog", [127, 69, 76, 70, 0], [], none, some "1.00 MB"⟩).info_lines.length
        = 1 := by
  exact ⟨by decide, by decide⟩

/-- C7 (amended): for a file classified Executable the preview is the
external dependency-lister's lines prepended with the
metadata-derived size line; if the lister fails its output is replaced
by the empty list (`unwrap_or_default`), so the preview is exactly the
size line, and classification itself still succeeds. -/
theorem executable_preview_lines :
    ∀ f : RegFile, InfoType.new f = InfoType.Executable →
      (Info.new f).info_type = InfoType.Executable
      ∧ (Info.new f).info_lines = execSizeLine f :: f.lddOutput.getD []
      ∧ (f.lddOutput = none → (Info.new f).info_lines = [execSizeLine f]) := by
  intro f h
  unfold Info.new
  rw [h]
  refine ⟨rfl, rfl, ?_⟩
  intro hl
  rw [hl]
  rfl

theorem executable_preview_lines_witness :
    (Info.new ⟨"app", [127, 69, 76, 70], [], none, none⟩).info_type = InfoType.Executable
    ∧ (Info.new ⟨"app", [127, 69, 76, 70], [], none, none⟩).info_lines =
        execSizeLine ⟨"app", [127, 69, 76, 70], [], none, none⟩ ::
          (Option.getD (RegFile.lddOutput ⟨"app", [127, 69, 76, 70], [], none, none⟩) []) :=
  ⟨(executable_preview_lines ⟨"app", [127, 69, 76, 70], [], none, none⟩ (by decide)).1,
    (executable_preview_lines ⟨"app", [127, 69, 76, 70], [], none, none⟩ (by decide)).2.1⟩

/-! ### Comparator lemmas for the directory lister -/

theorem lexLE_total (l1 l2 : List Char) : lexLE l1 l2 = true ∨ lexLE l2 l1 = true := by
  induction l1 generalizing l2 with
  | nil => left; rfl
  | cons a as1 ih =>
    cases l2 with
    | nil => right; rfl
    | cons b bs1 =>
      by_cases h1 : a.toNat < b.toNat
      · left; simp [lexLE, h1]
      · by_cases h2 : b.toNat < a.toNat
        · right; simp [lexLE, h2]
        · cases ih bs1 with
          | inl h => left; simp [lexLE, h1, h2, h]
          | inr h => right; simp [lexLE, h1, h2, h]

theorem lexLE_trans (l1 l2 l3 : List Char) (h12 : lexLE l1 l2 = true)
    (h23 : lexLE l2 l3 = true) : lexLE l1 l3 = true := by
  induction l1 generalizing l2 l3 with
  | nil => rfl
  | cons a as1 ih =>
    cases l2 with
    | nil => simp [lexLE] at h12
    | cons b bs1 =>
      cases l3 with
      | nil => simp [lexLE] at h23
      | cons c cs1 =>
        simp only [lexLE] at h12 h23 ⊢
        by_cases hab : a.toNat < b.toNat
        · by_cases hbc : b.toNat < c.toNat
          · rw [if_pos (by omega)]
          · by_cases hcb : c.toNat < b.toNat
            · simp [hbc, hcb] at h23
            · rw [if_pos (by omega)]
        · by_cases hba : b.toNat < a.toNat
          · simp [hab, hba] at h12
          · by_cases hbc : b.toNat < c.toNat
            · rw [if_pos (by omega)]
            · by_cases hcb : c.toNat < b.toNat
              · simp [hbc, hcb] at h23
              · rw [if_neg (by omega), if_neg (by omega)]
                simp only [hab, hba, if_neg] at h12
                simp only [hbc, hcb, if_neg] at h23
                exact ih bs1 cs1 h12 h23

instance : IsTrans File fileLEP where
  trans := by
    intro a b c hab hbc
    unfold fileLEP fileLE at *
    by_cases da : a.ftype = FileType.directory <;>
      by_cases db : b.ftype = FileType.directory <;>
        by_cases dc : c.ftype = FileType.directory <;>
          simp [da, db, dc] at hab hbc ⊢ <;>
            exact lexLE_trans _ _ _ hab hbc

instance : IsTotal File fileLEP where
  total := by
    intro a b
    unfold fileLEP fileLE
    by_cases da : a.ftype = FileType.directory <;>
      by_cases db : b.ftype = FileType.directory <;>
        simp [da, db] <;>
          exact lexLE_total _ _

/-- C6: the lister's output is a permutation of its input minus (when
`show_hidden` is false) the dot-prefixed names; no hidden name survives
a `show_hidden = false` listing; the output is pairwise ordered
directories-first and byte-lexicographically ascending by name within
each group; and the claim's concrete example holds:
a directory holding `.git/` (dir), `README` (file), `src/` (dir), with hidden names dropped,
lists as `[src, README]`.  (Depth-1 listing is by construction: the
entries are the immediate children walkdir yields.) -/
theorem directory_contents_spec :
    (∀ (entries : List File) (sh : Bool), (directory_contents entries sh).Perm
        (if sh then entries else entries.filter (fun f => !is_hidden f.name)))
    ∧ (∀ (entries : List File) (f : File),
        f ∈ directory_contents entries false → is_hidden f.name = false)
    ∧ (∀ (entries : List File) (sh : Bool),
        (directory_contents entries sh).Pairwise (fun f1 f2 =>
          (f1.ftype = FileType.directory ∧ f2.ftype ≠ FileType.directory)
          ∨ ((f1.ftype = FileType.directory ↔ f2.ftype = FileType.directory)
              ∧ lexLE f1.name.toList f2.name.toList = true)))
    ∧ directory_contents
        [⟨FileType.directory, ".git"⟩, ⟨FileType.file, "README"⟩,
          ⟨FileType.directory, "src"⟩] false
      = [⟨FileType.directory, "src"⟩, ⟨FileType.file, "README"⟩] := by
  refine ⟨?_, ?_, ?_, by decide⟩
  · intro entries sh
    cases sh <;> simp [directory_contents, List.perm_insertionSort]
  · intro entries f hf
    have hmem : f ∈ (entries.filter (fun f => !is_hidden f.name)) := by
      simp only [directory_contents] at hf
      exact (List.perm_insertionSort fileLEP
        (entries.filter (fun f => !is_hidden f.name))).mem_iff.mp hf
    have := (List.mem_filter.mp hmem).2
    simpa using this
  · intro entries sh
    have hs := List.sorted_insertionSort fileLEP
      (if sh then entries else entries.filter (fun f => !is_hidden f.name))
    have hdc : directory_contents entries sh =
        List.insertionSort fileLEP
          (if sh then entries else entries.filter (fun f => !is_hidden f.name)) := by
      cases sh <;> simp [directory_contents]
    rw [hdc]
    refine hs.imp ?_
    intro f1 f2 h
    unfold fileLEP fileLE at h
    by_cases d1 : f1.ftype = FileType.directory <;>
      by_cases d2 : f2.ftype = FileType.directory <;>
        simp [d1, d2] at h ⊢ <;> tauto

theorem directory_contents_spec_witness :
    File.mk FileType.file "README" ∈ directory_contents
        [⟨FileType.directory, ".git"⟩, ⟨FileType.file, "README"⟩,
          ⟨FileType.directory, "src"⟩] false
    ∧ is_hidden (File.mk FileType.file "README").name = false :=
  ⟨by decide,
    directory_contents_spec.2.1
      [⟨FileType.directory, ".git"⟩, ⟨FileType.file, "README"⟩,
        ⟨FileType.directory, "src"⟩]
      ⟨FileType.file, "README"⟩ (by decide)⟩

/-! ### Spec-side enumerations for the NavigateDown claim -/

/-- The classification list the claim's mapping enumerates, following
the spec's words (it includes `Pdf`). -/
inductive SpecOpenClass where
  | Text
  | Image
  | Audio
  | Video
  | Pdf
  | Executable
deriving DecidableEq, Repr

/-- The open events the claim's mapping enumerates, following the
spec's words (it includes `ReadPdf`). -/
inductive SpecOpenEvent where
  | OpenText
  | OpenImage
  | PlayMedia
  | ReadPdf
  | OpenExecutable
deriving DecidableEq, Repr

/-- The claim's per-classification event mapping, following the spec's
words. -/
def specOpenMapping : SpecOpenClass → SpecOpenEvent
  | SpecOpenClass.Text => SpecOpenEvent.OpenText
  | SpecOpenClass.Image => SpecOpenEvent.OpenImage
  | SpecOpenClass.Audio => SpecOpenEvent.PlayMedia
  | SpecOpenClass.Video => SpecOpenEvent.PlayMedia
  | SpecOpenClass.Pdf => SpecOpenEvent.ReadPdf
  | SpecOpenClass.Executable => SpecOpenEvent.OpenExecutable

/-- Name-for-name correspondence from the claim's classification list
into the code's `InfoType`; `none` means the code has no such
variant. -/
def specClassToInfoType : SpecOpenClass → Option InfoType
  | SpecOpenClass.Text => some InfoType.Text
  | SpecOpenClass.Image => some InfoType.Image
  | SpecOpenClass.Audio => some InfoType.Audio
  | SpecOpenClass.Video => some InfoType.Video
  | SpecOpenClass.Pdf => none
  | SpecOpenClass.Executable => some InfoType.Executable

/-- Name-for-name correspondence from the claim's open-event list into
the code's `ApplicationEvent`; `none` means the code has no such
event. -/
def specEventToApplicationEvent : SpecOpenEvent → Option ApplicationEvent
  | SpecOpenEvent.OpenText => some ApplicationEvent.OpenText
  | SpecOpenEvent.OpenImage => some ApplicationEvent.OpenImage
  | SpecOpenEvent.PlayMedia => some ApplicationEvent.PlayMedia
  | SpecOpenEvent.ReadPdf => none
  | SpecOpenEvent.OpenExecutable => some ApplicationEvent.OpenExecutable

/-- C4, counterexample: the claim's mapping sends `Pdf` to `ReadPdf`,
but the code's classification enum has no `Pdf` variant and its event
enum has no `ReadPdf` event, so no state can exhibit that arm (and the
code's fallback additionally maps `Unknown` to `OpenImage` and `Link`
to no event, which the claim's list does not mention). -/
theorem navigate_down_pdf_counterexample :
    specClassToInfoType SpecOpenClass.Pdf = none
    ∧ specEventToApplicationEvent (specOpenMapping SpecOpenClass.Pdf) = none
    ∧ fallbackEvents InfoType.Unknown = [ApplicationEvent.OpenImage]
    ∧ fallbackEvents InfoType.Link = [] := by
  exact ⟨rfl, rfl, rfl, rfl⟩

/-- C4 (amended): on NavigateDown, a selected directory is descended
into (`change_directory` sets the path and `directory_changed`);
otherwise, with a non-`Directory` classification at hand, the matching
open event is enqueued per `fallbackEvents`: Text → OpenText,
Image → OpenImage, Audio/Video → PlayMedia,
Executable → OpenExecutable, and also Unknown → OpenImage while Link
enqueues nothing; there is no Pdf classification and no ReadPdf
event. -/
theorem navigate_down_behavior :
    ∀ (s : AppState) (p : List String), s.selected_item = some p →
      (s.env.isDir p = true →
        handleEvent s ApplicationEvent.NavigateDown =
          HandlerOutcome.ok (change_directory s p))
      ∧ (s.env.isDir p = false → ∀ info, s.selection_info = some info →
          info.info_type ≠ InfoType.Directory →
          handleEvent s ApplicationEvent.NavigateDown =
            HandlerOutcome.ok
              { s with new_events := s.new_events ++ fallbackEvents info.info_type }) := by
  intro s p hsel
  constructor
  · intro hdir
    simp [handleEvent, hsel, hdir]
  · intro hdir info hinfo hne
    simp only [handleEvent, hsel, hdir, Bool.false_eq_true, if_false, navigateDownFallback,
      hinfo]
    cases h : info.info_type with
    | Directory => exact absurd h hne
    | Link =>
      simp only [h, fallbackEvents, List.append_nil]
      rw [← hsel, ← hinfo]
    | Executable => simp [h, fallbackEvents]
    | Text => simp [h, fallbackEvents]
    | Unknown => simp [h, fallbackEvents]
    | Image => simp [h, fallbackEvents]
    | Video => simp [h, fallbackEvents]
    | Audio => simp [h, fallbackEvents]

theorem navigate_down_behavior_witness :
    handleEvent
        { exState with
            selected_item := some ["a"],
            env := { emptyEnv with isDir := fun _ => true } }
        ApplicationEvent.NavigateDown =
      HandlerOutcome.ok
        (change_directory
          { exState with
              selected_item := some ["a"],
              env := { emptyEnv with isDir := fun _ => true } }
          ["a"]) :=
  (navigate_down_behavior
    { exState with
        selected_item := some ["a"],
        env := { emptyEnv with isDir := fun _ => true } }
    ["a"] rfl).1 rfl

/-- C10: failed navigation is effect-free apart from the debug message:
NavigateUp with no parent, and NavigateDown with no classification and
either nothing selected or a non-directory selection, each step to
exactly `appMsg s ("Error: " ++ msg)`; and `appMsg` changes no field
but the debug ring buffer, to which it appends one message (evicting
the oldest entry when the buffer already holds six).  With a
classification at hand the fallback of C4 applies instead, which is
what the claim's "no Classification is available to trigger the
fallback" excludes. -/
theorem failed_navigation_frame :
    (∀ s : AppState, parent_directory s = none →
        step s ApplicationEvent.NavigateUp =
          some (appMsg s ("Error: " ++ "No parent directory available")))
    ∧ (∀ s : AppState, s.selection_info = none → s.selected_item = none →
        step s ApplicationEvent.NavigateDown =
          some (appMsg s ("Error: " ++ "No item selected!")))
    ∧ (∀ (s : AppState) (p : List String), s.selection_info = none →
        s.selected_item = some p → s.env.isDir p = false →
        step s ApplicationEvent.NavigateDown =
          some (appMsg s ("Error: " ++ "Selected item is not a directory!")))
    ∧ (∀ (s : AppState) (m : String),
        (appMsg s m).current_directory = s.current_directory
        ∧ (appMsg s m).current_selection = s.current_selection
        ∧ (appMsg s m).selected_item = s.selected_item
        ∧ (appMsg s m).current_directory_contents = s.current_directory_contents
        ∧ (appMsg s m).parent_directory_contents = s.parent_directory_contents
        ∧ (appMsg s m).show_hidden = s.show_hidden
        ∧ (appMsg s m).directory_changed = s.directory_changed
        ∧ (appMsg s m).should_run = s.should_run
        ∧ (appMsg s m).selection_info = s.selection_info
        ∧ (appMsg s m).new_events = s.new_events
        ∧ (appMsg s m).children = s.children
        ∧ (appMsg s m).debug_messages =
            (if s.debug_messages.length > 5 then s.debug_messages.drop 1
              else s.debug_messages) ++ [m]) := by
  refine ⟨?_, ?_, ?_, ?_⟩
  · intro s h
    simp [step, handleEvent, h]
  · intro s hinfo hsel
    simp [step, handleEvent, hsel, navigateDownFallback, hinfo]
  · intro s p hinfo hsel hdir
    simp [step, handleEvent, hsel, hdir, navigateDownFallback, hinfo]
  · intro s m
    refine ⟨rfl, rfl, rfl, rfl, rfl, rfl, rfl, rfl, rfl, rfl, rfl, rfl⟩

theorem failed_navigation_frame_witness :
    step exState ApplicationEvent.NavigateUp =
      some (appMsg exState ("Error: " ++ "No parent directory available")) :=
  failed_navigation_frame.1 exState rfl

theorem update_selected_item_preserves (s : AppState) :
    (update_selected_item s).current_directory = s.current_directory
    ∧ (update_selected_item s).current_selection = s.current_selection
    ∧ (update_selected_item s).current_directory_contents = s.current_directory_contents
    ∧ (update_selected_item s).parent_directory_contents = s.parent_directory_contents
    ∧ (update_selected_item s).directory_changed = s.directory_changed
    ∧ (update_selected_item s).show_hidden = s.show_hidden
    ∧ (update_selected_item s).new_events = s.new_events
    ∧ (update_selected_item s).debug_messages = s.debug_messages
    ∧ (update_selected_item s).should_run = s.should_run := by
  unfold update_selected_item
  cases h : s.current_directory_contents.get? s.current_selection with
  | none => simp
  | some item => cases hf : item.ftype <;> simp [hf]

/-- C9: `ToggleShowHidden` always flips `show_hidden` and raises
`directory_changed`; a tick that starts with `directory_changed = true`
relists both panes through `directory_contents` (with the then-current
`show_hidden`), clears the flag, resets the selection to 0 and
reclassifies it (`refresh` ends in `update_selected_item`, which
recomputes `selected_item` and `selection_info`); and the tick
processes the event queue only from the refreshed state, so the flag is
cleared before any queued event runs. -/
theorem toggle_show_hidden_refresh :
    (∀ s : AppState, handleEvent s ApplicationEvent.ToggleShowHidden =
        HandlerOutcome.ok { s with show_hidden := !s.show_hidden, directory_changed := true })
    ∧ (∀ s : AppState, s.directory_changed = true →
        (refresh s).directory_changed = false
        ∧ (refresh s).current_selection = 0
        ∧ (refresh s).current_directory_contents =
            directory_contents (s.env.raw s.current_directory) s.show_hidden
        ∧ (refresh s).parent_directory_contents =
            directory_contents (s.env.raw ((parent_directory s).getD fallbackPath))
              s.show_hidden
        ∧ refresh s = update_selected_item
            { s with
                current_directory_contents :=
                  directory_contents (s.env.raw s.current_directory) s.show_hidden,
                parent_directory_contents :=
                  directory_contents (s.env.raw ((parent_directory s).getD fallbackPath))
                    s.show_hidden,
                directory_changed := false,
                current_selection := 0 })
    ∧ (∀ s : AppState, updateTick s =
        processEvents { refresh s with new_events := [] } (refresh s).new_events) := by
  refine ⟨fun s => rfl, ?_, fun s => rfl⟩
  intro s h
  have hr : refresh s = update_selected_item
      { s with
          current_directory_contents :=
            directory_contents (s.env.raw s.current_directory) s.show_hidden,
          parent_directory_contents :=
            directory_contents (s.env.raw ((parent_directory s).getD fallbackPath))
              s.show_hidden,
          directory_changed := false,
          current_selection := 0 } := by
    unfold refresh
    rw [if_pos h]
  have hp := update_selected_item_preserves
    { s with
        current_directory_contents :=
          directory_contents (s.env.raw s.current_directory) s.show_hidden,
        parent_directory_contents :=
          directory_contents (s.env.raw ((parent_directory s).getD fallbackPath))
            s.show_hidden,
        directory_changed := false,
        current_selection := 0 }
  rw [hr]
  exact ⟨hp.2.2.2.2.1, hp.2.1, hp.2.2.1, hp.2.2.2.1, rfl⟩

theorem toggle_show_hidden_refresh_witness :
    (refresh { exState with directory_changed := true }).directory_changed = false
    ∧ (refresh { exState with directory_changed := true }).current_selection = 0
    ∧ (refresh { exState with directory_changed := true }).current_directory_contents =
        directory_contents
          ((AppState.env { exState with directory_changed := true }).raw
            (AppState.current_directory { exState with directory_changed := true }))
          (AppState.show_hidden { exState with directory_changed := true })
    ∧ (refresh { exState with directory_changed := true }).parent_directory_contents =
        directory_contents
          ((AppState.env { exState with directory_changed := true }).raw
            ((parent_directory { exState with directory_changed := true }).getD fallbackPath))
          (AppState.show_hidden { exState with directory_changed := true })
    ∧ refresh { exState with directory_changed := true } = update_selected_item
        { { exState with directory_changed := true } with
            current_directory_contents :=
              directory_contents
                ((AppState.env { exState with directory_changed := true }).raw
                  (AppState.current_directory { exState with directory_changed := true }))
                (AppState.show_hidden { exState with directory_changed := true }),
            parent_directory_contents :=
              directory_contents
                ((AppState.env { exState with directory_changed := true }).raw
                  ((parent_directory { exState with directory_changed := true }).getD
                    fallbackPath))
                (AppState.show_hidden { exState with directory_changed := true }),
            directory_changed := false,
            current_selection := 0 } :=
  toggle_show_hidden_refresh.2.1 { exState with directory_changed := true } rfl

/-- C1, counterexample: with nothing selected (an ordinary state — an
empty directory, reachable at startup, and `OpenImage` is bound
directly to a key), an `OpenImage` event hits
`self.selected_item.clone().unwrap()` and panics: the drain loop dies
instead of logging a message and continuing, so not every event failure
is caught at the per-event boundary for every application state. -/
theorem update_loop_panic_counterexample :
    processEvents exState [ApplicationEvent.OpenImage] = none
    ∧ exState.selected_item = none := by
  exact ⟨rfl, rfl⟩

/-- C1 (amended): every event whose handler does not panic is resolved
at the per-event boundary — an `Err` result is converted into a message
appended to the debug ring buffer — and the loop continues with the
next event.  The handlers that can panic (and then abort the whole
loop) are exactly: the `Open*`/`PlayMedia` arms when nothing is
selected (`unwrap` on `selected_item`), `PlayMedia` when `ffprobe`
succeeds with empty stdout (`unwrap` on the first line), and the
NavigateDown fallback when navigation failed yet the classification
claims `Directory` (an explicit `panic!`); non-UTF-8 paths, which also
panic at `to_str().unwrap()`, are not representable in this model. -/
theorem update_loop_error_handling :
    (∀ (s : AppState) (e : ApplicationEvent), PanicFree s e → (step s e).isSome = true)
    ∧ (∀ (s s1 : AppState) (e : ApplicationEvent) (rest : List ApplicationEvent),
        step s e = some s1 → processEvents s (e :: rest) = processEvents s1 rest)
    ∧ (∀ (s s1 : AppState) (e : ApplicationEvent) (m : String),
        handleEvent s e = HandlerOutcome.err s1 m →
        step s e = some (appMsg s1 ("Error: " ++ m))) := by
  refine ⟨?_, ?_, ?_⟩
  · intro s e h
    cases e with
    | Close => simp [step, handleEvent]
    | NavigateUp =>
      cases hp : parent_directory s <;> simp [step, handleEvent, hp]
    | NavigateDown =>
      simp only [PanicFree] at h
      cases hsel : s.selected_item with
      | none =>
        rw [hsel] at h
        cases hinfo : s.selection_info with
        | none => simp [step, handleEvent, hsel, navigateDownFallback, hinfo]
        | some info =>
          rw [hinfo] at h
          have hne : info.info_type ≠ InfoType.Directory := h
          simp only [step, handleEvent, hsel]
          unfold navigateDownFallback
          rw [hinfo]
          cases hit : info.info_type with
          | Directory => exact absurd hit hne
          | Executable => simp [hit]
          | Text => simp [hit]
          | Unknown => simp [hit]
          | Link => simp [hit]
          | Image => simp [hit]
          | Video => simp [hit]
          | Audio => simp [hit]
      | some p =>
        by_cases hdir : s.env.isDir p = true
        · simp [step, handleEvent, hsel, hdir]
        · have hdir2 : s.env.isDir p = false := by
            cases hd : s.env.isDir p
            · rfl
            · exact absurd hd hdir
          rw [hsel] at h
          cases hinfo : s.selection_info with
          | none =>
            simp [step, handleEvent, hsel, hdir2, navigateDownFallback, hinfo]
          | some info =>
            rw [hinfo] at h
            have hne : info.info_type ≠ InfoType.Directory := h hdir2
            simp only [step, handleEvent, hsel, hdir2, Bool.false_eq_true, if_false]
            unfold navigateDownFallback
            rw [hinfo]
            cases hit : info.info_type with
            | Directory => exact absurd hit hne
            | Executable => simp [hit]
            | Text => simp [hit]
            | Unknown => simp [hit]
            | Link => simp [hit]
            | Image => simp [hit]
            | Video => simp [hit]
            | Audio => simp [hit]
    | SelectNext => simp [step, handleEvent]
    | SelectPrevious => simp [step, handleEvent]
    | ToggleShowHidden => simp [step, handleEvent]
    | OpenImage =>
      simp only [PanicFree] at h
      cases hsel : s.selected_item with
      | none => rw [hsel] at h; simp at h
      | some p =>
        rcases hrc : run_command s "pfiew" ["--input=" ++ pathStr p] with ⟨s2, eo⟩
        cases eo <;> simp [step, handleEvent, hsel, hrc]
    | OpenText =>
      simp only [PanicFree] at h
      cases hsel : s.selected_item with
      | none => rw [hsel] at h; simp at h
      | some p =>
        rcases hrc : run_command s "micro" [pathStr p] with ⟨s2, eo⟩
        cases eo <;> simp [step, handleEvent, hsel, hrc]
    | OpenExecutable =>
      simp only [PanicFree] at h
      cases hsel : s.selected_item with
      | none => rw [hsel] at h; simp at h
      | some p =>
        rcases hrc : run_command s (pathStr p) [] with ⟨s2, eo⟩
        cases eo <;> simp [step, handleEvent, hsel, hrc]
    | PlayMedia =>
      simp only [PanicFree, headMedia] at h
      cases hsel : s.selected_item with
      | none => rw [hsel] at h; simp at h
      | some p =>
        rw [hsel] at h
        cases hm : s.env.mediaResults with
        | nil => simp [step, handleEvent, hsel, play_media, hm]
        | cons m rest =>
          rw [hm] at h
          cases m with
          | probeFail => simp [step, handleEvent, hsel, play_media, hm]
          | probeEmpty => exact absurd rfl h.2
          | probeParseErr => simp [step, handleEvent, hsel, play_media, hm]
          | probed long spawnOk =>
            cases spawnOk <;> cases long <;> simp [step, handleEvent, hsel, play_media, hm]
    | DebugEvent => simp [step, handleEvent]
  · intro s s1 e rest h
    simp [processEvents, h]
  · intro s s1 e m h
    simp [step, h]

theorem update_loop_error_handling_witness :
    (step exState ApplicationEvent.Close).isSome = true
    ∧ processEvents exState [ApplicationEvent.DebugEvent] =
        processEvents (appMsg exState "q!!") []
    ∧ step exState ApplicationEvent.NavigateUp =
        some (appMsg exState ("Error: " ++ "No parent directory available")) :=
  ⟨update_loop_error_handling.1 exState ApplicationEvent.Close trivial,
    update_loop_error_handling.2.1 exState (appMsg exState "q!!")
      ApplicationEvent.DebugEvent [] rfl,
    update_loop_error_handling.2.2 exState exState ApplicationEvent.NavigateUp
      "No parent directory available" rfl⟩

end Kranger
